import Mathlib

set_option maxHeartbeats 1000000
set_option linter.unusedVariables false

/-!
Shallow embedding of the repository sources `src/scripts/src/main.py` and
`src/scripts/tests/test_main.py`.  The repository delegates all QR encoding
to the external `qrcode` library; that library is outside the repository and
is treated, as the specification directs, as a black box: its observable
contract (fallible encoding, fit-based version selection, deterministic
non-empty raster output) is modelled from the specification's words, while
every line of the repository's own Python is translated directly.
-/

namespace Blog

/-- Error-correction levels exposed by the external library
(`qrcode.constants.ERROR_CORRECT_L` and friends). -/
inductive ErrorCorrection
  | L
  | M
  | Q
  | H
deriving DecidableEq, Repr

/-- Encoder configuration object handed to `qrcode.QRCode(...)`:
symbol version, error-correction level, module pixel size, border width. -/
structure QRConfig where
  version : Nat
  error_correction : ErrorCorrection
  box_size : Nat
  border : Nat
deriving DecidableEq, Repr

/-- Observable interactions of the scripts with the outside world
(stdout lines, library calls, filesystem writes/removals), recorded in
program order. -/
inductive Event
  | print (line : String)
  | newQRCode (cfg : QRConfig)
  | addData (s : String)
  | make (fit : Bool)
  | makeImage (fill back : String)
  | save (path : String)
  | remove (path : String)
deriving DecidableEq, Repr

/-- Python exceptions that can cross `generate_qr_code`.  The source installs
no handler, so each carries exactly the library's or runtime's own payload. -/
inductive PyErr
  | libError (msg : String)
  | ioError (path : String)
  | assertionError (msg : String)
  | importError (modName : String)
deriving DecidableEq, Repr

/-- World state threaded through the embedded procedures: the file system
(path to byte content), which paths accept writes, and the event trace. -/
structure World where
  fs : String → Option (List Nat)
  writable : String → Bool
  trace : List Event

/-- Append one observable event to the trace. -/
def logEvent (w : World) (e : Event) : World :=
  { w with trace := w.trace ++ [e] }

/-- File-system update performed by a successful write. -/
def setFile (fs : String → Option (List Nat)) (p : String) (bs : List Nat) :
    String → Option (List Nat) :=
  fun q => if q = p then some bs else fs q

/-- File-system update performed by `os.remove`. -/
def delFile (fs : String → Option (List Nat)) (p : String) :
    String → Option (List Nat) :=
  fun q => if q = p then none else fs q

/-- Modelled from the spec: the black-box external library may suffer a
"library-internal encoding failure".  This oracle gives that failure, if any,
for a given payload; a concrete `LibBehavior` fixes one behavior of the
library. -/
structure LibBehavior where
  encodeFault : String → Option String

/-- Modelled from the spec: the symbol version "determines the module grid
dimensions and data capacity"; only its monotone growth matters to the
claims, so capacity grows linearly from version 1's capacity of 17. -/
def qrCapacity (version : Nat) : Nat := 17 * version

/-- Modelled from the spec: with fit sizing the library silently picks the
smallest symbol version whose capacity holds the payload. -/
def bestFit (payloadLen : Nat) : Nat := max 1 ((payloadLen + 16) / 17)

/-- State of the `qrcode.QRCode` object: its configuration, the data segments
added so far, and the symbol version chosen by `make`. -/
structure QRCode where
  config : QRConfig
  data : List String
  fittedVersion : Option Nat
deriving Repr

/-- Concatenation of the added data segments (the payload the library
encodes). -/
def concatData : List String → String
  | [] => ""
  | [s] => s
  | s :: rest => s ++ concatData rest

/-- Payload currently held by the QRCode object. -/
def QRCode.payload (qr : QRCode) : String := concatData qr.data

/-- Embedding of `qr.add_data(s)`: appends one data segment. -/
def QRCode.add_data (qr : QRCode) (s : String) : QRCode :=
  { qr with data := qr.data ++ [s] }

/-- Embedding of `qr.make(fit=...)` against the black-box library: a
library-internal encoding fault propagates as an exception; otherwise with
fit sizing the version is chosen to hold the payload, and without fit the
configured version must already hold it. -/
def QRCode.make (lib : LibBehavior) (fit : Bool) (qr : QRCode) :
    Except PyErr QRCode :=
  match lib.encodeFault qr.payload with
  | some m => .error (.libError m)
  | none =>
    if fit then
      .ok { qr with
            fittedVersion := some (max qr.config.version (bestFit qr.payload.length)) }
    else if qr.payload.length ≤ qrCapacity qr.config.version then
      .ok { qr with fittedVersion := some qr.config.version }
    else
      .error (.libError ("data overflow"))

/-- Modelled from the spec: the black-box render step produces a binary
raster image fully determined by the configuration, the chosen version, the
two colors and the payload, and never empty (a bitmap always carries header
bytes). -/
def renderImage (cfg : QRConfig) (version : Nat) (fill back : String)
    (payload : String) : List Nat :=
  137 :: 80 :: 78 :: 71 :: version :: cfg.box_size :: cfg.border ::
    ((fill.toList.map Char.toNat) ++ (back.toList.map Char.toNat) ++
      (payload.toList.map Char.toNat))

/-- Embedding of `qr.make_image(fill_color=..., back_color=...)`. -/
def QRCode.make_image (qr : QRCode) (fill back : String) : List Nat :=
  renderImage qr.config (qr.fittedVersion.getD qr.config.version) fill back
    qr.payload

/-- Embedding of `generate_qr_code(url, output_filename)` from
`src/scripts/src/main.py`, threading the world and returning the uncaught
exception, if any (the source installs no handler). -/
def generate_qr_code (lib : LibBehavior) (url output_filename : String)
    (w : World) : World × Option PyErr :=
  let w := logEvent w (.print ("Generating QR code for: " ++ url))
  let qr : QRCode :=
    { config := { version := 1, error_correction := .L, box_size := 10, border := 4 },
      data := [], fittedVersion := none }
  let w := logEvent w (.newQRCode qr.config)
  let qr := qr.add_data url
  let w := logEvent w (.addData url)
  let w := logEvent w (.make true)
  match QRCode.make lib true qr with
  | .error e => (w, some e)
  | .ok qr =>
    let img := qr.make_image ("black") ("white")
    let w := logEvent w (.makeImage ("black") ("white"))
    let w := logEvent w (.save output_filename)
    if w.writable output_filename then
      let w := { w with fs := setFile w.fs output_filename img }
      (logEvent w (.print ("Successfully saved QR code to " ++ output_filename)), none)
    else
      (w, some (.ioError output_filename))

/-- Embedding of `main()` from `src/scripts/src/main.py`. -/
def main (lib : LibBehavior) (w : World) : World × Option PyErr :=
  let url := "https://irishlab.io"
  let output_filename := "website_qr.png"
  generate_qr_code lib url output_filename w

/-- Models the Python process outcome: an uncaught exception terminates the
process with status 1, a normal return with status 0. -/
def exitStatus (r : World × Option PyErr) : Nat :=
  match r.2 with
  | none => 0
  | some _ => 1

/-- Models the guard at the bottom of `main.py`: running the file as a
program calls `main()` and ignores the command line entirely. -/
def run_script (lib : LibBehavior) (argv : List String) (w : World) :
    World × Nat :=
  let r := main lib w
  (r.1, exitStatus r)

/-- Size reported by `os.path.getsize` (0 when the file is absent). -/
def fileSize (w : World) (p : String) : Nat :=
  match w.fs p with
  | some bs => bs.length
  | none => 0

/-- Embedding of a Python `assert cond, msg` statement. -/
def pyAssert (w : World) (cond : Bool) (msg : String) : World × Option PyErr :=
  if cond then (w, none) else (w, some (.assertionError msg))

/-- Embedding of the guarded cleanup pattern
`if os.path.exists(p): os.remove(p)` used by the test. -/
def removeIfExists (w : World) (p : String) : World :=
  if (w.fs p).isSome then logEvent { w with fs := delFile w.fs p } (.remove p)
  else w

/-- Embedding of `test_generate_qr_code` from
`src/scripts/tests/test_main.py`: pre-cleanup, a try block (the call and two
assertions), and a finally block that removes the file on every exit path. -/
def test_generate_qr_code (lib : LibBehavior) (w : World) :
    World × Option PyErr :=
  let url := "https://example.com"
  let filename := "test_qr.png"
  let w := removeIfExists w filename
  let r := generate_qr_code lib url filename w
  let body :=
    match r with
    | (w1, some e) => (w1, some e)
    | (w1, none) =>
      match pyAssert w1 (w1.fs filename).isSome
          ("QR code image file was not created") with
      | (wa, some e) => (wa, some e)
      | (wa, none) =>
        pyAssert wa (decide (0 < fileSize wa filename))
          ("QR code image file is empty")
  (removeIfExists body.1 filename, body.2)

/-- Which module names each `sys.path` entry can provide (abstraction of the
directory layout the interpreter searches). -/
def resolvable (avail : String → List String) (paths : List String)
    (m : String) : Bool :=
  paths.any (fun p => (avail p).contains m)

/-- Whether an embedded computation completed without an exception. -/
def exceptOk {α : Type} (r : Except PyErr α) : Bool :=
  match r with
  | .ok _ => true
  | .error _ => false

/-- Embedding of the top of `src/scripts/tests/test_main.py` in source
order: the from-main import of `generate_qr_code` executes first, and only
afterwards does `sys.path.append(<src dir>)` run; the result is the final
`sys.path` when loading succeeds. -/
def test_main_module_init (avail : String → List String)
    (paths0 : List String) (srcDir : String) : Except PyErr (List String) :=
  if resolvable avail paths0 ("main") then
    .ok (paths0 ++ [srcDir])
  else
    .error (.importError ("main"))

/-- The constant configuration `main.py` builds on every call. -/
def fixedCfg : QRConfig :=
  { version := 1, error_correction := .L, box_size := 10, border := 4 }

/-- Events every run of `generate_qr_code` emits before the library's
`make` step resolves. -/
def genPrefix (url : String) : List Event :=
  [.print ("Generating QR code for: " ++ url), .newQRCode fixedCfg,
   .addData url, .make true]

/-- Byte content `generate_qr_code` writes on success for a given target. -/
def genImgBytes (url : String) : List Nat :=
  renderImage fixedCfg (max 1 (bestFit url.length)) ("black") ("white") url

/-- Collects the configurations passed to the library constructor, in
order. -/
def configEvents (tr : List Event) : List QRConfig :=
  tr.filterMap fun e =>
    match e with
    | .newQRCode cfg => some cfg
    | _ => none

/-- Collects the (fill, back) color pairs passed to the library renderer, in
order. -/
def colorEvents (tr : List Event) : List (String × String) :=
  tr.filterMap fun e =>
    match e with
    | .makeImage f b => some (f, b)
    | _ => none

/-- A behavior of the black-box library in which encoding never fails. -/
def libOK : LibBehavior := { encodeFault := fun _ => none }

/-- A behavior of the black-box library in which encoding always fails. -/
def libBad : LibBehavior := { encodeFault := fun _ => some ("boom") }

/-- An empty, everywhere-writable world. -/
def w0 : World := { fs := fun _ => none, writable := fun _ => true, trace := [] }

/-- An empty world in which no path is writable. -/
def wRO : World :=
  { fs := fun _ => none, writable := fun _ => false, trace := [] }

/-- A writable world in which every path already holds a stale file and the
trace is non-empty. -/
def w1pre : World :=
  { fs := fun _ => some [1, 2, 3], writable := fun _ => true,
    trace := [.print ("x")] }

/-- Closed-form behavior of `generate_qr_code`, by cases on the only two
failure points the source can hit: a library-internal encoding fault at
`make`, and an unwritable destination at `save`. -/
theorem generate_spec (lib : LibBehavior) (url path : String) (w : World) :
    generate_qr_code lib url path w =
      match lib.encodeFault url with
      | some m =>
        ({ w with trace := w.trace ++ genPrefix url }, some (.libError m))
      | none =>
        if w.writable path then
          ({ w with
              fs := setFile w.fs path (genImgBytes url),
              trace := w.trace ++ genPrefix url ++
                [.makeImage ("black") ("white"), .save path,
                 .print ("Successfully saved QR code to " ++ path)] }, none)
        else
          ({ w with
              trace := w.trace ++ genPrefix url ++
                [.makeImage ("black") ("white"), .save path] },
           some (.ioError path)) := by
  cases h : lib.encodeFault url with
  | some m =>
    simp [generate_qr_code, QRCode.make, QRCode.payload, QRCode.add_data,
      concatData, logEvent, genPrefix, fixedCfg, h]
  | none =>
    by_cases hw : w.writable path <;>
      simp [generate_qr_code, QRCode.make, QRCode.payload, QRCode.add_data,
        concatData, logEvent, genPrefix, fixedCfg, genImgBytes,
        QRCode.make_image, renderImage, h, hw]

/-- The guarded cleanup ends with no file at the cleaned path, whatever held
before. -/
theorem removeIfExists_fs_self (w : World) (p : String) :
    (removeIfExists w p).fs p = none := by
  unfold removeIfExists
  cases h : w.fs p <;> simp [h, logEvent, delFile]

/-- The guarded cleanup changes no writability. -/
theorem removeIfExists_writable (w : World) (p : String) :
    (removeIfExists w p).writable = w.writable := by
  unfold removeIfExists
  cases h : w.fs p <;> simp [h, logEvent]

/-- The guarded cleanup only appends to the trace. -/
theorem removeIfExists_trace (w : World) (p : String) :
    (removeIfExists w p).trace =
      w.trace ++ (if (w.fs p).isSome then [Event.remove p] else []) := by
  unfold removeIfExists
  cases h : w.fs p <;> simp [h, logEvent, delFile]

/-- C1: for every non-empty target string and every writable output path,
once `generate_qr_code(target, output_path)` has returned (normally), a
file exists at that path and its size is greater than zero. -/
theorem C1_generate_creates_nonempty_file (lib : LibBehavior)
    (url path : String) (w : World) (hurl : url ≠ "")
    (hw : w.writable path = true)
    (hret : (generate_qr_code lib url path w).2 = none) :
    ∃ bs, (generate_qr_code lib url path w).1.fs path = some bs ∧
      0 < bs.length := by
  cases h : lib.encodeFault url with
  | some m => simp [generate_spec, h] at hret
  | none =>
    simp [generate_spec, h, hw, setFile, genImgBytes, renderImage]

/-- Witness for C1 at concrete inputs. -/
theorem C1_witness :
    ∃ bs,
      (generate_qr_code libOK ("https://irishlab.io") ("website_qr.png")
          w0).1.fs ("website_qr.png") = some bs ∧ 0 < bs.length :=
  C1_generate_creates_nonempty_file libOK ("https://irishlab.io")
    ("website_qr.png") w0 (by decide) rfl rfl

/-- C2: calling `generate_qr_code` twice in sequence with the same
arguments overwrites the file and leaves the same post-condition as a
single call: the second run succeeds, the file content at the path after
the second run equals the content after the first, and the file exists and
is non-empty. -/
theorem C2_idempotent (lib : LibBehavior) (url path : String) (w : World)
    (hok : lib.encodeFault url = none) (hw : w.writable path = true) :
    (generate_qr_code lib url path w).2 = none ∧
    (generate_qr_code lib url path
        ((generate_qr_code lib url path w).1)).2 = none ∧
    (generate_qr_code lib url path
        ((generate_qr_code lib url path w).1)).1.fs path =
      (generate_qr_code lib url path w).1.fs path ∧
    ∃ bs, (generate_qr_code lib url path w).1.fs path = some bs ∧
      0 < bs.length := by
  simp only [generate_spec, hok]
  simp [hw, setFile, genImgBytes, renderImage]

/-- Witness for C2 at concrete inputs. -/
theorem C2_witness :
    (generate_qr_code libOK ("u") ("p") w0).2 = none ∧
    (generate_qr_code libOK ("u") ("p")
        ((generate_qr_code libOK ("u") ("p") w0).1)).2 = none ∧
    (generate_qr_code libOK ("u") ("p")
        ((generate_qr_code libOK ("u") ("p") w0).1)).1.fs ("p") =
      (generate_qr_code libOK ("u") ("p") w0).1.fs ("p") ∧
    ∃ bs, (generate_qr_code libOK ("u") ("p") w0).1.fs ("p") = some bs ∧
      0 < bs.length :=
  C2_idempotent libOK ("u") ("p") w0 rfl rfl

/-- C3: every failure inside `generate_qr_code` propagates to the caller as
the raising step's own exception, unmodified; the process then terminates
with non-zero status; the procedure retries nothing (one attempt per step
is visible in the trace), recovers nothing, and leaves the file system
untouched on failure. -/
theorem C3_errors_propagate (lib : LibBehavior) (url path : String)
    (w : World) :
    (∀ m, lib.encodeFault url = some m →
      generate_qr_code lib url path w =
        ({ w with trace := w.trace ++ genPrefix url },
         some (.libError m)) ∧
      exitStatus (generate_qr_code lib url path w) ≠ 0) ∧
    (lib.encodeFault url = none → w.writable path = false →
      generate_qr_code lib url path w =
        ({ w with trace := w.trace ++ genPrefix url ++
            [.makeImage ("black") ("white"), .save path] },
         some (.ioError path)) ∧
      exitStatus (generate_qr_code lib url path w) ≠ 0) := by
  constructor
  · intro m hm
    simp [generate_spec, hm, exitStatus]
  · intro h hw
    simp [generate_spec, h, hw, exitStatus]

/-- Witness for C3: a failing library behavior and an unwritable path, each
at concrete inputs. -/
theorem C3_witness :
    generate_qr_code libBad ("u") ("p") w0 =
      ({ w0 with trace := w0.trace ++ genPrefix ("u") },
       some (.libError ("boom"))) ∧
    exitStatus (generate_qr_code libOK ("u") ("p") wRO) ≠ 0 :=
  ⟨((C3_errors_propagate libBad ("u") ("p") w0).1 ("boom") rfl).1,
   ((C3_errors_propagate libOK ("u") ("p") wRO).2 rfl rfl).2⟩

/-- C4: every invocation hands the library the same fixed configuration —
version 1, error correction Low, box size 10, border 4 — and renders black
on white; the run makes exactly one constructor call and one render call,
and neither depends on the caller's arguments. -/
theorem C4_fixed_configuration (lib : LibBehavior) (url path : String)
    (w : World) (hok : lib.encodeFault url = none) :
    configEvents (generate_qr_code lib url path w).1.trace =
      configEvents w.trace ++
        [{ version := 1, error_correction := .L, box_size := 10,
           border := 4 }] ∧
    colorEvents (generate_qr_code lib url path w).1.trace =
      colorEvents w.trace ++ [(("black"), ("white"))] := by
  by_cases hw : w.writable path <;>
    simp [generate_spec, hok, hw, configEvents, colorEvents, genPrefix,
      fixedCfg]

/-- Witness for C4 at concrete inputs. -/
theorem C4_witness :
    configEvents (generate_qr_code libOK ("u") ("p") w0).1.trace =
      configEvents w0.trace ++
        [{ version := 1, error_correction := .L, box_size := 10,
           border := 4 }] ∧
    colorEvents (generate_qr_code libOK ("u") ("p") w0).1.trace =
      colorEvents w0.trace ++ [(("black"), ("white"))] :=
  C4_fixed_configuration libOK ("u") ("p") w0 rfl

/-- C5: the smoke test calls the generator with the known-good URL and the
scratch filename (so its verdict is exactly the fate of that call, the
assertions adding nothing on success), the scratch file is gone after the
test on every exit path, and when a file pre-existed the removal precedes
everything else the test does. -/
theorem C5_smoke_test (lib : LibBehavior) (w : World) :
    (test_generate_qr_code lib w).1.fs ("test_qr.png") = none ∧
    (test_generate_qr_code lib w).2 =
      (generate_qr_code lib ("https://example.com") ("test_qr.png")
        (removeIfExists w ("test_qr.png"))).2 ∧
    ((w.fs ("test_qr.png")).isSome = true →
      ∃ rest, (test_generate_qr_code lib w).1.trace =
        w.trace ++ Event.remove ("test_qr.png") :: rest) := by
  cases hf : lib.encodeFault ("https://example.com") with
  | some m =>
    refine ⟨?_, ?_, ?_⟩
    · simp only [test_generate_qr_code]
      simp [generate_spec, hf]
      exact removeIfExists_fs_self _ _
    · simp [test_generate_qr_code, generate_spec, hf]
    · intro hpre
      simp [test_generate_qr_code, generate_spec, hf, removeIfExists_trace,
        removeIfExists_fs_self, hpre]
  | none =>
    by_cases hw :
        (removeIfExists w ("test_qr.png")).writable ("test_qr.png")
    · refine ⟨?_, ?_, ?_⟩
      · simp only [test_generate_qr_code]
        exact removeIfExists_fs_self _ _
      · simp [test_generate_qr_code, generate_spec, hf, hw, pyAssert,
          fileSize, setFile, genImgBytes, renderImage]
      · intro hpre
        simp [test_generate_qr_code, generate_spec, hf, hw, pyAssert,
          fileSize, setFile, genImgBytes, renderImage, removeIfExists_trace,
          hpre]
    · refine ⟨?_, ?_, ?_⟩
      · simp only [test_generate_qr_code]
        simp [generate_spec, hf, hw]
        exact removeIfExists_fs_self _ _
      · simp [test_generate_qr_code, generate_spec, hf, hw]
      · intro hpre
        simp [test_generate_qr_code, generate_spec, hf, hw,
          removeIfExists_trace, removeIfExists_fs_self, hpre]

/-- Witness for C5 at a concrete world that starts with a stale file. -/
theorem C5_witness :
    (test_generate_qr_code libOK w1pre).1.fs ("test_qr.png") = none ∧
    (∃ rest, (test_generate_qr_code libOK w1pre).1.trace =
      w1pre.trace ++ Event.remove ("test_qr.png") :: rest) :=
  ⟨(C5_smoke_test libOK w1pre).1, (C5_smoke_test libOK w1pre).2.2 rfl⟩

/-- C6: the entry point takes no command-line input — `run_script` gives
the same outcome whatever the argument vector — and every run of `main`
is exactly `generate_qr_code` applied to the two constant literals. -/
theorem C6_entry_point_constants (lib : LibBehavior) (w : World)
    (argv argv2 : List String) :
    main lib w =
      generate_qr_code lib ("https://irishlab.io") ("website_qr.png") w ∧
    run_script lib argv w = run_script lib argv2 w :=
  ⟨rfl, rfl⟩

/-- C7: `generate_qr_code` validates neither argument: every input pair,
the empty target included, reaches the library calls (constructor,
`add_data`, `make`), and any exception it raises originates in the
library's encoding step or in the save step — never in a validation step
of its own. -/
theorem C7_no_validation (lib : LibBehavior) (url path : String)
    (w : World) :
    (∃ rest, (generate_qr_code lib url path w).1.trace =
      w.trace ++ genPrefix url ++ rest) ∧
    ∀ e, (generate_qr_code lib url path w).2 = some e →
      (∃ m, lib.encodeFault url = some m ∧ e = .libError m) ∨
      (e = .ioError path ∧ w.writable path = false) := by
  cases hf : lib.encodeFault url with
  | some m =>
    refine ⟨⟨[], by simp [generate_spec, hf]⟩, ?_⟩
    intro e he
    simp [generate_spec, hf] at he
    exact Or.inl ⟨m, rfl, he.symm⟩
  | none =>
    by_cases hw : w.writable path
    · refine ⟨⟨[.makeImage ("black") ("white"), .save path,
        .print ("Successfully saved QR code to " ++ path)],
        by simp [generate_spec, hf, hw]⟩, ?_⟩
      intro e he
      simp [generate_spec, hf, hw] at he
    · refine ⟨⟨[.makeImage ("black") ("white"), .save path],
        by simp [generate_spec, hf, hw]⟩, ?_⟩
      intro e he
      simp [generate_spec, hf, hw] at he
      simp [he, hw]

/-- Witness for C7 at the empty target and an unwritable path. -/
theorem C7_witness :
    (∃ rest, (generate_qr_code libOK ("") ("p") wRO).1.trace =
      wRO.trace ++ genPrefix ("") ++ rest) ∧
    ((∃ m, libOK.encodeFault ("") = some m ∧
        PyErr.ioError ("p") = PyErr.libError m) ∨
      (PyErr.ioError ("p") = PyErr.ioError ("p") ∧
        wRO.writable ("p") = false)) :=
  ⟨(C7_no_validation libOK ("") ("p") wRO).1,
   (C7_no_validation libOK ("") ("p") wRO).2 (.ioError ("p")) rfl⟩

/-- C8: because `make` runs with fit sizing, a target whose payload exceeds
the capacity of the configured version 1 does not make the procedure fail:
the run still returns normally, writes the (non-empty) image, and the
version baked into the written bytes is strictly larger than 1. -/
theorem C8_fit_no_overflow (lib : LibBehavior) (url path : String)
    (w : World) (hok : lib.encodeFault url = none)
    (hw : w.writable path = true) (hbig : qrCapacity 1 < url.length) :
    (generate_qr_code lib url path w).2 = none ∧
    (generate_qr_code lib url path w).1.fs path =
      some (genImgBytes url) ∧
    0 < (genImgBytes url).length ∧
    1 < max 1 (bestFit url.length) := by
  refine ⟨?_, ?_, ?_, ?_⟩
  · simp [generate_spec, hok, hw]
  · simp [generate_spec, hok, hw, setFile]
  · simp [genImgBytes, renderImage]
  · have h2 : 2 ≤ (url.length + 16) / 17 := by
      rw [Nat.le_div_iff_mul_le (by norm_num)]
      unfold qrCapacity at hbig
      omega
    calc 1 < (url.length + 16) / 17 := by omega
      _ ≤ max 1 ((url.length + 16) / 17) := le_max_right _ _
      _ = max 1 (bestFit url.length) := by
          unfold bestFit
          omega

/-- Witness for C8 at a 19-character target, which exceeds version 1's
capacity of 17. -/
theorem C8_witness :
    (generate_qr_code libOK ("https://example.com") ("t.png") w0).2 =
      none ∧
    (generate_qr_code libOK ("https://example.com") ("t.png") w0).1.fs
        ("t.png") = some (genImgBytes ("https://example.com")) ∧
    0 < (genImgBytes ("https://example.com")).length ∧
    1 < max 1 (bestFit (String.length ("https://example.com"))) :=
  C8_fit_no_overflow libOK ("https://example.com") ("t.png") w0 rfl rfl
    (by decide)

/-- C9: in the test module, the from-main import executes before the
`sys.path` append, so the appended directory never affects whether the
module loads: loading succeeds exactly when `main` is resolvable from the
pre-existing path, whatever directory the later append would add. -/
theorem C9_import_before_path_append (avail : String → List String)
    (paths0 : List String) (d1 d2 : String) :
    exceptOk (test_main_module_init avail paths0 d1) =
      exceptOk (test_main_module_init avail paths0 d2) ∧
    (exceptOk (test_main_module_init avail paths0 d1) = true ↔
      resolvable avail paths0 ("main") = true) := by
  unfold test_main_module_init
  cases h : resolvable avail paths0 ("main") <;> simp [h, exceptOk]

/-- C10: `generate_qr_code` is deterministic: two runs with the same target
and output path that both return normally leave identical byte content at
that path, whatever worlds (and even whatever fault-free library moods)
the runs started from. -/
theorem C10_deterministic (lib lib2 : LibBehavior) (url path : String)
    (w w2 : World) (h1 : (generate_qr_code lib url path w).2 = none)
    (h2 : (generate_qr_code lib2 url path w2).2 = none) :
    (generate_qr_code lib url path w).1.fs path =
      (generate_qr_code lib2 url path w2).1.fs path := by
  cases hf : lib.encodeFault url with
  | some m => simp [generate_spec, hf] at h1
  | none =>
    cases hf2 : lib2.encodeFault url with
    | some m => simp [generate_spec, hf2] at h2
    | none =>
      by_cases hw : w.writable path
      · by_cases hw2 : w2.writable path
        · simp [generate_spec, hf, hf2, hw, hw2, setFile]
        · simp [generate_spec, hf2, hw2] at h2
      · simp [generate_spec, hf, hw] at h1

/-- Witness for C10 at two different starting worlds. -/
theorem C10_witness :
    (generate_qr_code libOK ("u") ("p") w0).1.fs ("p") =
      (generate_qr_code libOK ("u") ("p") w1pre).1.fs ("p") :=
  C10_deterministic libOK libOK ("u") ("p") w0 w1pre rfl rfl

end Blog
